import Mathlib

/-!
Verification of the authentication-broker core of this repository, as a
shallow embedding in Lean 4.

The embedding covers:
* the profile-reconciliation algorithm (`updateProfileApps` in the auth
  source file),
* identity discovery (`loadNamedIdentitiesLoop`, `loadNamedIdentities`,
  `loadUnnamedIdentity`, `getIdentityInfo`),
* the sign-in (auth response) handler tail (`getAppPrivateKey`,
  `signInRebuild` for the credential rebuild of `handleSignIn`, and
  `handleSignIn` itself as a pure function of the outcomes of its
  external calls),
* the backup-phrase authenticated-encryption format (`encryptMnemonic`,
  `decryptMnemonic`, `encryptBackupPhrase`, `decryptBackupPhrase` from
  `src/encrypt.js`).

External collaborators (node `crypto`, `bip39`, `triplesec`, the
blockstack library, the name registry and the Gaia storage hub) are
modelled as explicit function parameters; the repository's own control
flow, data layout and string manipulation are translated statement by
statement.  JavaScript truthiness of strings (`!s` is true exactly for
the empty string, on this data model) is modelled by `truthyStr`, and
JavaScript object maps by association lists (`objGet` / `objSet`).
-/

/-- JavaScript truthiness of a string: falsy exactly when empty. -/
def truthyStr (s : String) : Bool := !(s == "")

/-- JavaScript truthiness of a possibly-absent string
(`undefined`/`null` and `""` are falsy). -/
def truthyOpt : Option String → Bool
  | none => false
  | some s => truthyStr s

/-- Lookup in a JavaScript-object-style association list
(`o.hasOwnProperty(k)` is `(objGet o k).isSome`; `o[k]` is `objGet o k`). -/
def objGet : List (String × String) → String → Option String
  | [], _ => none
  | (k', v') :: rest, k => if k' == k then some v' else objGet rest k

/-- Assignment `o[k] = v` on a JavaScript-object-style association list:
replaces the value at an existing key in place, appends a new key at
the end (JavaScript property-insertion order). -/
def objSet : List (String × String) → String → String → List (String × String)
  | [], k, v => [(k, v)]
  | (k', v') :: rest, k, v =>
    if k' == k then (k', v) :: rest else (k', v') :: objSet rest k v

/-- `String.startsWith` of JavaScript, as a character-list prefix test. -/
def startsWithCL : List Char → List Char → Bool
  | _, [] => true
  | [], _ :: _ => false
  | c :: s, d :: p => c == d && startsWithCL s p

/-- `s.startsWith p` on the two strings' character lists. -/
def jsStartsWith (s p : String) : Bool := startsWithCL s.data p.data

theorem startsWithCL_refl (l : List Char) : startsWithCL l l = true := by
  induction l with
  | nil => rfl
  | cons c s ih => simp [startsWithCL, ih]

theorem jsStartsWith_refl (s : String) : jsStartsWith s s = true :=
  startsWithCL_refl s.data

theorem objGet_objSet_self (l : List (String × String)) (k v : String) :
    objGet (objSet l k v) k = some v := by
  induction l with
  | nil => simp [objGet, objSet]
  | cons p rest ih =>
    by_cases h : p.1 == k
    · simp [objSet, objGet, h]
    · simp [objSet, objGet, h, ih]

/-- The `GaiaHubConfig` of the blockstack library, restricted to the two
fields the auth source reads (`url_prefix` and `address`, written
`urlPrefix`/`address` here). -/
structure GaiaHubConfig where
  urlPrefix : String
  address : String
deriving DecidableEq, Repr

/-- A profile document: `{ type, account, apps }`, with `apps` a mapping
from application origin to storage read URL that may be absent
(`null`/`undefined`). -/
structure ProfileDoc where
  ptype : String
  account : List String
  apps : Option (List (String × String))
deriving DecidableEq, Repr

/-- The default profile the reconciliation algorithm instantiates when
the name lookup produced no profile. -/
def defaultProfile : ProfileDoc :=
  { ptype := "@Person", account := [], apps := some [] }

/-- `updateProfileApps` of the auth source file, as a pure function of
the profile the `nameLookup` call produced (`none` covers both a failed
lookup and a lookup whose result lacks a profile), the application
origin, and the app's Gaia hub config.  Returns the (possibly repaired)
profile and the `changed` flag. -/
def updateProfileApps (lookupProfile : Option ProfileDoc) (appOrigin : String)
    (appGaiaConfig : GaiaHubConfig) : ProfileDoc × Bool :=
  let changed0 := lookupProfile.isNone
  let profile := lookupProfile.getD defaultProfile
  let changed1 := changed0 || profile.apps.isNone
  let apps := profile.apps.getD []
  let gaiaPfx := appGaiaConfig.urlPrefix ++ appGaiaConfig.address ++ "/"
  let cur := objGet apps appOrigin
  if truthyOpt cur = false then
    ({ profile with apps := some (objSet apps appOrigin gaiaPfx) }, true)
  else if jsStartsWith (cur.getD "") gaiaPfx = false then
    ({ profile with apps := some (objSet apps appOrigin gaiaPfx) }, true)
  else
    ({ profile with apps := some apps }, changed1)

theorem truthyStr_gaiaPfx (a b : String) : truthyStr (a ++ b ++ "/") = true := by
  have hdata : (a ++ b ++ "/").data = a.data ++ b.data ++ ['/'] := by
    cases a; cases b; rfl
  have : ¬((a ++ b ++ "/") = "") := by
    intro h
    have := congrArg String.data h
    rw [hdata] at this
    simp at this
  simp [truthyStr, this]

/-- After one run of `updateProfileApps`, the returned profile always has
a present `apps` map whose entry at `appOrigin` is a truthy string that
starts with the expected Gaia prefix. -/
theorem updateProfileApps_post (lookupProfile : Option ProfileDoc)
    (appOrigin : String) (cfg : GaiaHubConfig) :
    ∃ apps w,
      (updateProfileApps lookupProfile appOrigin cfg).1.apps = some apps ∧
      objGet apps appOrigin = some w ∧
      truthyStr w = true ∧
      jsStartsWith w (cfg.urlPrefix ++ cfg.address ++ "/") = true := by
  unfold updateProfileApps
  set profile := lookupProfile.getD defaultProfile with hp
  set apps := profile.apps.getD [] with ha
  set gp := cfg.urlPrefix ++ cfg.address ++ "/" with hg
  set cur := objGet apps appOrigin with hc
  by_cases h1 : truthyOpt cur = false
  · refine ⟨objSet apps appOrigin gp, gp, ?_⟩
    simp [h1, objGet_objSet_self, hg, truthyStr_gaiaPfx, jsStartsWith_refl]
  · by_cases h2 : jsStartsWith (cur.getD "") gp = false
    · refine ⟨objSet apps appOrigin gp, gp, ?_⟩
      simp [h1, h2, objGet_objSet_self, hg, truthyStr_gaiaPfx, jsStartsWith_refl]
    · have hcur : ∃ w, cur = some w := by
        cases hcv : cur with
        | none => rw [hcv] at h1; simp [truthyOpt] at h1
        | some w => exact ⟨w, rfl⟩
      obtain ⟨w, hw⟩ := hcur
      have ht : truthyStr w = true := by
        rw [hw] at h1; simpa [truthyOpt] using h1
      have h2' : jsStartsWith w gp = true := by
        rw [hw] at h2; simpa using h2
      refine ⟨apps, w, ?_, hw, ht, h2'⟩
      simp [h1, h2]

/-- A profile already satisfying the invariant passes through
`updateProfileApps` untouched with `changed = false`. -/
theorem updateProfileApps_fixed (p : ProfileDoc) (apps : List (String × String))
    (appOrigin : String) (cfg : GaiaHubConfig) (w : String)
    (happs : p.apps = some apps)
    (hget : objGet apps appOrigin = some w)
    (ht : truthyStr w = true)
    (hpfx : jsStartsWith w (cfg.urlPrefix ++ cfg.address ++ "/") = true) :
    updateProfileApps (some p) appOrigin cfg = (p, false) := by
  unfold updateProfileApps
  simp [happs, hget, truthyOpt, ht, hpfx]
  cases p
  simp at happs
  simp [happs]

/-- The owner key info derived for one seed index (`getOwnerKeyInfo`
result): the identity address and its private key. -/
structure KeyInfo where
  idAddress : String
  privateKey : String
deriving DecidableEq, Repr

/-- `NamedIdentityType` of the auth source file.  The profile payload is
kept abstract in the type parameter `P`; the `{}` initial value is the
`emptyProfile` argument threaded through the discovery functions. -/
structure NamedIdentity (P : Type) where
  name : String
  idAddress : String
  privateKey : String
  index : Nat
  profile : P
  profileUrl : String
deriving DecidableEq, Repr

section Discovery

variable {P : Type}

/-- `loadNamedIdentitiesLoop`: starting from `index`, derive the owner
key, ask the registry for the names owned by the (3-character-prefix
stripped) address, stop on an empty answer, and otherwise push one
identity per name and recurse on `index + 1`.  Throws `'Too many names'`
past index 65536.  `ownerKey` stands for
`getOwnerKeyInfo(network, mnemonic, index)` and `namesOwned` for
`network.getNamesOwned`. -/
def loadNamedIdentitiesLoop (emptyProfile : P) (ownerKey : Nat → KeyInfo)
    (namesOwned : String → List String) (index : Nat)
    (identities : List (NamedIdentity P)) :
    Except String (List (NamedIdentity P)) :=
  if h : index > 65536 then
    .error "Too many names"
  else
    let keyInfo := ownerKey index
    let nameList := namesOwned (keyInfo.idAddress.drop 3)
    if nameList.length = 0 then
      .ok identities
    else
      loadNamedIdentitiesLoop emptyProfile ownerKey namesOwned (index + 1)
        (identities ++ nameList.map fun n =>
          { name := n, idAddress := keyInfo.idAddress,
            privateKey := keyInfo.privateKey, index := index,
            profile := emptyProfile, profileUrl := "" })
termination_by 65537 - index
decreasing_by omega

/-- `loadNamedIdentities`: the loop started at index 0 with an empty
accumulator. -/
def loadNamedIdentities (emptyProfile : P) (ownerKey : Nat → KeyInfo)
    (namesOwned : String → List String) :
    Except String (List (NamedIdentity P)) :=
  loadNamedIdentitiesLoop emptyProfile ownerKey namesOwned 0 []

/-- `loadUnnamedIdentity`: the synthetic anonymous identity for a given
index, with empty name, empty profile and empty profile URL. -/
def loadUnnamedIdentity (emptyProfile : P) (ownerKey : Nat → KeyInfo)
    (index : Nat) : NamedIdentity P :=
  { name := "", idAddress := (ownerKey index).idAddress,
    privateKey := (ownerKey index).privateKey, index := index,
    profile := emptyProfile, profileUrl := "" }

/-- The result of one `nameLookup(network, name, true)` call that
resolved: an `error` flag (`hasOwnProperty('error') && error` truthy),
and the profile URL and profile document of the name. -/
structure NameData (P : Type) where
  error : Bool
  profileUrl : String
  profile : P
deriving DecidableEq, Repr

/-- The positional assignment loop of `getIdentityInfo`
(`for i < nameDatas.length: identities[i] gets nameDatas[i]`): the i-th
surviving lookup result is written onto the i-th identity; identities
beyond the number of lookup results are left untouched. -/
def applyNameDatas : List (NamedIdentity P) → List (NameData P) →
    List (NamedIdentity P)
  | ids, [] => ids
  | [], _ :: _ => []
  | i :: ids, nd :: nds =>
    (if nd.error then { i with profileUrl := "" }
     else { i with profileUrl := nd.profileUrl, profile := nd.profile }) ::
      applyNameDatas ids nds

theorem applyNameDatas_length (ids : List (NamedIdentity P))
    (nds : List (NameData P)) :
    (applyNameDatas ids nds).length = ids.length := by
  induction ids generalizing nds with
  | nil => cases nds <;> rfl
  | cons i ids ih =>
    cases nds with
    | nil => rfl
    | cons nd nds => simp [applyNameDatas, ih]

/-- `getIdentityInfo`: load all named identities, look up each name's
profile concurrently (`lookup` stands for
`nameLookup(network, name, true).catch(() => null)`; `none` is a failed
lookup), drop the `null` results, assign the remaining results
positionally onto the identities, compute the next index from the
pre-filter identity count, drop identities with a falsy profile URL, and
append the anonymous identity. -/
def getIdentityInfo (emptyProfile : P) (ownerKey : Nat → KeyInfo)
    (namesOwned : String → List String)
    (lookup : String → Option (NameData P)) :
    Except String (List (NamedIdentity P)) :=
  match loadNamedIdentities emptyProfile ownerKey namesOwned with
  | .error e => .error e
  | .ok ids =>
    let nameDatas := (ids.map fun i => lookup i.name).filterMap fun x => x
    let identities := applyNameDatas ids nameDatas
    let nextIndex := identities.length + 1
    let identities2 := identities.filter fun i => truthyStr i.profileUrl
    .ok (identities2 ++ [loadUnnamedIdentity emptyProfile ownerKey nextIndex])

/-- Instrumented companion of `loadNamedIdentitiesLoop`: identical
control flow, and additionally counts how many registry queries
(`network.getNamesOwned` calls) the loop performs before returning. -/
def loadNamedIdentitiesLoopCount (emptyProfile : P) (ownerKey : Nat → KeyInfo)
    (namesOwned : String → List String) (index : Nat)
    (identities : List (NamedIdentity P)) :
    Except String (List (NamedIdentity P)) × Nat :=
  if h : index > 65536 then
    (.error "Too many names", 0)
  else
    let keyInfo := ownerKey index
    let nameList := namesOwned (keyInfo.idAddress.drop 3)
    if nameList.length = 0 then
      (.ok identities, 1)
    else
      let r := loadNamedIdentitiesLoopCount emptyProfile ownerKey namesOwned
        (index + 1)
        (identities ++ nameList.map fun n =>
          { name := n, idAddress := keyInfo.idAddress,
            privateKey := keyInfo.privateKey, index := index,
            profile := emptyProfile, profileUrl := "" })
      (r.1, r.2 + 1)
termination_by 65537 - index
decreasing_by omega

/-- Unfolding step: past the bound the loop throws at once. -/
theorem loadNamedIdentitiesLoop_over (emptyProfile : P)
    (ownerKey : Nat → KeyInfo) (namesOwned : String → List String)
    (index : Nat) (ids : List (NamedIdentity P)) (h : index > 65536) :
    loadNamedIdentitiesLoop emptyProfile ownerKey namesOwned index ids =
      .error "Too many names" := by
  rw [loadNamedIdentitiesLoop]
  simp [h]

/-- Unfolding step: an address owning zero names ends the loop. -/
theorem loadNamedIdentitiesLoop_out (emptyProfile : P)
    (ownerKey : Nat → KeyInfo) (namesOwned : String → List String)
    (index : Nat) (ids : List (NamedIdentity P)) (h : ¬ index > 65536)
    (hn : namesOwned ((ownerKey index).idAddress.drop 3) = []) :
    loadNamedIdentitiesLoop emptyProfile ownerKey namesOwned index ids =
      .ok ids := by
  rw [loadNamedIdentitiesLoop]
  simp [h, hn]

/-- Unfolding step: an address owning names pushes one identity per name
and advances. -/
theorem loadNamedIdentitiesLoop_step (emptyProfile : P)
    (ownerKey : Nat → KeyInfo) (namesOwned : String → List String)
    (index : Nat) (ids : List (NamedIdentity P)) (h : ¬ index > 65536)
    (hn : namesOwned ((ownerKey index).idAddress.drop 3) ≠ []) :
    loadNamedIdentitiesLoop emptyProfile ownerKey namesOwned index ids =
      loadNamedIdentitiesLoop emptyProfile ownerKey namesOwned (index + 1)
        (ids ++ (namesOwned ((ownerKey index).idAddress.drop 3)).map fun n =>
          { name := n, idAddress := (ownerKey index).idAddress,
            privateKey := (ownerKey index).privateKey, index := index,
            profile := emptyProfile, profileUrl := "" }) := by
  conv_lhs => rw [loadNamedIdentitiesLoop]
  simp [h, List.length_eq_zero, hn]

end Discovery

section SignIn

variable {P C K : Type}

/-- The key-derivation collaborators `getAppPrivateKey` uses, kept
abstract: `getApplicationKeyInfo(network, mnemonic, idAddress,
appOrigin, index)` (its result type is the abstract `K`),
`getGaiaAddressFromProfile` (which can throw: `Except`), and
`extractAppKey(network, keyInfo, appAddress?)`. -/
structure KeyDeps (P K : Type) where
  getApplicationKeyInfo : String → String → String → Nat → K
  getGaiaAddressFromProfile : P → String → Except String String
  extractAppKey : K → Option String → String

/-- `getAppPrivateKey` of the auth source file: derive the application
key info, try the existing-address-aware extraction using the address
found in the identity's profile, and fall back to the context-free
extraction when the profile lookup throws. -/
def getAppPrivateKey (deps : KeyDeps P K) (mnemonic : String)
    (id : NamedIdentity P) (appOrigin : String) : String :=
  let appKeyInfo := deps.getApplicationKeyInfo mnemonic id.idAddress appOrigin id.index
  match deps.getGaiaAddressFromProfile id.profile appOrigin with
  | .ok existingAppAddress => deps.extractAppKey appKeyInfo (some existingAppAddress)
  | .error _ => deps.extractAppKey appKeyInfo none

/-- The metadata envelope the broker attaches to the credential in
`makeSignInLink`: the chosen identity, profile URL, application origin,
redirect target, requested scopes, and the per-handshake salt. -/
structure MetadataFull (P : Type) where
  id : NamedIdentity P
  profileUrl : String
  appOrigin : String
  redirectUri : String
  scopes : List String
  salt : String
deriving DecidableEq, Repr

/-- The outward metadata envelope `handleSignIn` rebuilds: exactly one
field, the profile URL. -/
structure MetadataOut where
  profileUrl : String
deriving DecidableEq, Repr

/-- A decoded auth-response payload: the metadata envelope of type `M`,
plus all other token claims, kept abstract as `core : C`. -/
structure AuthPayload (C M : Type) where
  core : C
  metadata : M
deriving DecidableEq, Repr

/-- A signed JWT, abstracted to its signing key and payload
(`new TokenSigner('ES256K', key).sign(payload)`). -/
structure SignedToken (A : Type) where
  signingKey : String
  payload : A
deriving DecidableEq, Repr

/-- Lines 505–521 of the sign-in handler: read the identity and
handshake state out of the decrypted credential's metadata, re-derive
the application private key from the mnemonic, strip the metadata down
to `{ profileUrl }`, and re-sign the payload with the identity's own
private key.  Returns the app private key and the rebuilt outward
credential. -/
def signInRebuild (deps : KeyDeps P K) (mnemonic : String)
    (p : AuthPayload C (MetadataFull P)) :
    String × SignedToken (AuthPayload C MetadataOut) :=
  let id := p.metadata.id
  let appPrivateKey := getAppPrivateKey deps mnemonic id p.metadata.appOrigin
  (appPrivateKey,
    { signingKey := id.privateKey,
      payload := { core := p.core, metadata := { profileUrl := p.metadata.profileUrl } } })

/-- The resolved value of a `gaiaUploadProfileAll` call:
`{ dataUrls, error }`. -/
structure UploadResult where
  dataUrls : List String
  error : Option String
deriving DecidableEq, Repr

/-- Outcomes of the external calls `handleSignIn` makes, provided as
explicit inputs to the pure model: the request query parameter, the
transit-signature verification result, the decrypted inner token and
its registry verification result, the decoded payload, the
`gaiaConnect` result as a function of the app private key, the profile
produced by the `nameLookup` inside `updateProfileApps`, and the value
a profile upload would resolve to. -/
structure SignInEnv (P C : Type) where
  encAuthResponse : Option String
  outerValid : Bool
  decryptedAuthResponse : String
  innerValid : Bool
  payload : AuthPayload C (MetadataFull P)
  gaiaConnect : String → Except String GaiaHubConfig
  profileLookup : Option ProfileDoc
  uploadResult : UploadResult

/-- An HTTP response of the sign-in handler: a JSON error (the
step-specific `errorMsg`, `none` when no step set one, and the status
code), or a 302 redirect carrying the outward credential. -/
inductive SignInResult (C : Type) where
  | jsonError (errorMsg : Option String) (statusCode : Nat)
  | redirect (redirectUri : String)
      (authResponse : SignedToken (AuthPayload C MetadataOut))
deriving DecidableEq

/-- What one `handleSignIn` run did: the signed profile it uploaded (if
it attempted an upload) and the HTTP response. -/
structure SignInOutcome (C : Type) where
  uploadedProfile : Option (SignedToken ProfileDoc)
  response : SignInResult C

/-- `handleSignIn` of the auth source file as a pure function of its
environment: missing parameter → 400; outer transit signature invalid →
throw with no step message (400); inner verification failure → 400 with
the step message; otherwise rebuild the outward credential
(`signInRebuild`), connect to the app Gaia hub with the derived app
key, reconcile the profile, upload the re-signed profile exactly when
reconciliation reported a change and the requested scopes include
`store_write`, answer 502 when an attempted upload reported a truthy
error, and otherwise redirect to the requested target with the outward
credential attached. -/
def handleSignIn (deps : KeyDeps P K) (mnemonic : String)
    (env : SignInEnv P C) : SignInOutcome C :=
  match env.encAuthResponse with
  | none =>
    { uploadedProfile := none,
      response := .jsonError (some "No encAuthResponse given") 400 }
  | some _ =>
    if env.outerValid = false then
      { uploadedProfile := none, response := .jsonError none 400 }
    else if env.innerValid = false then
      { uploadedProfile := none,
        response := .jsonError
          (some ("Unable to verify authResponse token " ++
            env.decryptedAuthResponse)) 400 }
    else
      let p := env.payload
      let id := p.metadata.id
      let scopes := p.metadata.scopes
      let rebuilt := signInRebuild deps mnemonic p
      match env.gaiaConnect rebuilt.1 with
      | .error _ => { uploadedProfile := none, response := .jsonError none 400 }
      | .ok appHubConfig =>
        let newProfileData := updateProfileApps env.profileLookup
          p.metadata.appOrigin appHubConfig
        let profile := newProfileData.1
        let needProfileUpdate := newProfileData.2 && scopes.contains "store_write"
        let gaiaUrls := if needProfileUpdate then env.uploadResult
          else { dataUrls := [], error := none }
        let uploadedProfile := if needProfileUpdate then
            some ({ signingKey := id.privateKey, payload := profile } :
              SignedToken ProfileDoc)
          else none
        if truthyOpt gaiaUrls.error = true then
          { uploadedProfile := uploadedProfile,
            response := .jsonError
              (some ("Failed to upload new profile: " ++ gaiaUrls.error.getD ""))
              502 }
        else
          { uploadedProfile := uploadedProfile,
            response := .redirect p.metadata.redirectUri rebuilt.2 }

end SignIn

/-- The `bip39` collaborators of `src/encrypt.js`, kept abstract:
mnemonic validity, and the mnemonic/entropy bijection (entropy as a
byte list). -/
structure Bip39 where
  validateMnemonic : String → Bool
  mnemonicToEntropy : String → List Nat
  entropyToMnemonic : List Nat → String

/-- The node `crypto` collaborators of `src/encrypt.js`, kept abstract.
`pbkdf2Sync password salt iterations keylen` returns the derived key
block; `aes128cbcEncrypt key iv plaintext` and
`aes128cbcDecrypt key iv ciphertext` are the `aes-128-cbc` cipher (the
decipher can throw — e.g. on a padding failure under a wrong key — so
it returns `Except`); `hmacSha256 key data` and `sha256 data` are the
digests.  Bytes are byte lists. -/
structure CryptoPrims where
  pbkdf2Sync : String → List Nat → Nat → Nat → List Nat
  aes128cbcEncrypt : List Nat → List Nat → List Nat → List Nat
  aes128cbcDecrypt : List Nat → List Nat → List Nat → Except String (List Nat)
  hmacSha256 : List Nat → List Nat → List Nat
  sha256 : List Nat → List Nat

/-- `normalizeMnemonic`: the mnemonic's fixed-length entropy form. -/
def normalizeMnemonic (B : Bip39) (mnemonic : String) : List Nat :=
  B.mnemonicToEntropy mnemonic

/-- `denormalizeMnemonic`: entropy back to a mnemonic. -/
def denormalizeMnemonic (B : Bip39) (normalized : List Nat) : String :=
  B.entropyToMnemonic normalized

/-- `encryptMnemonic` of `src/encrypt.js`: reject non-BIP-39 input;
derive 48 bytes by `pbkdf2Sync(password, salt, 100000, 48, 'sha512')`;
split them into a 16-byte cipher key, a 16-byte MAC key and a 16-byte
IV; encrypt the normalized mnemonic with `aes-128-cbc`; HMAC-SHA256
`salt || ciphertext` under the MAC key; output
`salt || hmac || ciphertext`.  The fresh 16-byte random salt
(`crypto.randomBytes(16)`) is an explicit argument. -/
def encryptMnemonic (B : Bip39) (Cr : CryptoPrims) (plaintext password : String)
    (salt : List Nat) : Except String (List Nat) :=
  if B.validateMnemonic plaintext = false then
    .error "Not a valid bip39 nmemonic"
  else
    let plaintextNormalized := normalizeMnemonic B plaintext
    let keysAndIV := Cr.pbkdf2Sync password salt 100000 48
    let encKey := keysAndIV.take 16
    let macKey := (keysAndIV.drop 16).take 16
    let iv := (keysAndIV.drop 32).take 16
    let cipherText := Cr.aes128cbcEncrypt encKey iv plaintextNormalized
    let hmacDigest := Cr.hmacSha256 macKey (salt ++ cipherText)
    .ok (salt ++ hmacDigest ++ cipherText)

/-- `decryptMnemonic` of `src/encrypt.js`: split the buffer into
`salt(16) || hmacSig(32) || cipherText`, re-derive the keys from the
password and the stored salt, run the decipher (its own failure
propagates — the source decrypts before comparing HMACs), compare the
SHA256 hashes of the stored and recomputed HMACs, and on a match
denormalize and re-validate the mnemonic. -/
def decryptMnemonic (B : Bip39) (Cr : CryptoPrims) (dataBuffer : List Nat)
    (password : String) : Except String String :=
  let salt := dataBuffer.take 16
  let hmacSig := (dataBuffer.drop 16).take 32
  let cipherText := dataBuffer.drop 48
  let hmacPayload := salt ++ cipherText
  let keysAndIV := Cr.pbkdf2Sync password salt 100000 48
  let encKey := keysAndIV.take 16
  let macKey := (keysAndIV.drop 16).take 16
  let iv := (keysAndIV.drop 32).take 16
  match Cr.aes128cbcDecrypt encKey iv cipherText with
  | .error e => .error e
  | .ok plaintext =>
    let hmacDigest := Cr.hmacSha256 macKey hmacPayload
    if Cr.sha256 hmacSig ≠ Cr.sha256 hmacDigest then
      .error "Wrong password (HMAC mismatch)"
    else
      let mnemonic := denormalizeMnemonic B plaintext
      if B.validateMnemonic mnemonic = false then
        .error "Wrong password (invalid plaintext)"
      else
        .ok mnemonic

/-- `encryptBackupPhrase` delegates to `encryptMnemonic`. -/
def encryptBackupPhrase (B : Bip39) (Cr : CryptoPrims)
    (plaintext password : String) (salt : List Nat) :
    Except String (List Nat) :=
  encryptMnemonic B Cr plaintext password salt

/-- `decryptBackupPhrase`: try `decryptMnemonic`, and on failure fall
back to the legacy `triplesec` decryption (abstract argument `legacy`),
surfacing both messages when both fail. -/
def decryptBackupPhrase (B : Bip39) (Cr : CryptoPrims)
    (legacy : String → List Nat → Except String String)
    (dataBuffer : List Nat) (password : String) : Except String String :=
  match decryptMnemonic B Cr dataBuffer password with
  | .ok mnemonic => .ok mnemonic
  | .error e =>
    match legacy password dataBuffer with
    | .ok plaintextBuffer => .ok plaintextBuffer
    | .error err =>
      .error ("current algorithm: \"" ++ e ++ "\", legacy algorithm: \"" ++
        err ++ "\"")

/-- Against a registry that owns at least one name at every address, the
counting loop started at `index = 65537 - n` performs exactly `n`
registry queries and then fails with `'Too many names'`. -/
theorem loadNamedIdentitiesLoopCount_alwaysOwned {P : Type} (emptyProfile : P)
    (ownerKey : Nat → KeyInfo) (namesOwned : String → List String)
    (h : ∀ a, namesOwned a ≠ []) :
    ∀ (n index : Nat) (ids : List (NamedIdentity P)), index + n = 65537 →
      loadNamedIdentitiesLoopCount emptyProfile ownerKey namesOwned index ids =
        (.error "Too many names", n) := by
  intro n
  induction n with
  | zero =>
    intro index ids hix
    have hgt : index > 65536 := by omega
    rw [loadNamedIdentitiesLoopCount]
    simp [hgt]
  | succ n ih =>
    intro index ids hix
    have hle : ¬ index > 65536 := by omega
    have hne : namesOwned ((ownerKey index).idAddress.drop 3) ≠ [] :=
      h ((ownerKey index).idAddress.drop 3)
    have hlen : ¬ (namesOwned ((ownerKey index).idAddress.drop 3)).length = 0 := by
      simpa [List.length_eq_zero] using hne
    rw [loadNamedIdentitiesLoopCount]
    simp only [hle, dite_false, hlen, if_false]
    rw [ih (index + 1) _ (by omega)]

/-- Against a registry that owns at least one name at every address, the
plain loop started at `index = 65537 - n` fails with
`'Too many names'`. -/
theorem loadNamedIdentitiesLoop_alwaysOwned {P : Type} (emptyProfile : P)
    (ownerKey : Nat → KeyInfo) (namesOwned : String → List String)
    (h : ∀ a, namesOwned a ≠ []) :
    ∀ (n index : Nat) (ids : List (NamedIdentity P)), index + n = 65537 →
      loadNamedIdentitiesLoop emptyProfile ownerKey namesOwned index ids =
        .error "Too many names" := by
  intro n
  induction n with
  | zero =>
    intro index ids hix
    have hgt : index > 65536 := by omega
    rw [loadNamedIdentitiesLoop]
    simp [hgt]
  | succ n ih =>
    intro index ids hix
    have hle : ¬ index > 65536 := by omega
    have hne : namesOwned ((ownerKey index).idAddress.drop 3) ≠ [] :=
      h ((ownerKey index).idAddress.drop 3)
    have hlen : ¬ (namesOwned ((ownerKey index).idAddress.drop 3)).length = 0 := by
      simpa [List.length_eq_zero] using hne
    rw [loadNamedIdentitiesLoop]
    simp only [hle, dite_false, hlen, if_false]
    exact ih (index + 1) _ (by omega)

/-- The counting loop computes the same identity list / error as the
plain one: it only adds the query count. -/
theorem loadNamedIdentitiesLoop_eq_count {P : Type} (emptyProfile : P)
    (ownerKey : Nat → KeyInfo) (namesOwned : String → List String) :
    ∀ (n index : Nat) (ids : List (NamedIdentity P)), 65537 - index ≤ n →
      loadNamedIdentitiesLoop emptyProfile ownerKey namesOwned index ids =
        (loadNamedIdentitiesLoopCount emptyProfile ownerKey namesOwned index ids).1 := by
  intro n
  induction n with
  | zero =>
    intro index ids hix
    have hgt : index > 65536 := by omega
    rw [loadNamedIdentitiesLoop, loadNamedIdentitiesLoopCount]
    simp [hgt]
  | succ n ih =>
    intro index ids hix
    by_cases hgt : index > 65536
    · rw [loadNamedIdentitiesLoop, loadNamedIdentitiesLoopCount]
      simp [hgt]
    · rw [loadNamedIdentitiesLoop, loadNamedIdentitiesLoopCount]
      simp only [hgt, dite_false]
      by_cases hlen : (namesOwned ((ownerKey index).idAddress.drop 3)).length = 0
      · simp [hlen]
      · simp only [hlen, if_false]
        exact ih (index + 1) _ (by omega)

/-- C1 (counterexample): a profile whose `apps[origin]` entry is
`"PA/extra"` — different from the expected prefix `"PA/"` but starting
with it — is left untouched by Reconciliation, with `changed = false`,
contradicting the claim that every entry different from the expected
prefix is overwritten with `changed = true`. -/
theorem claim_C1_counterexample :
    updateProfileApps
        (some ⟨"@Person", [], some [("https://app.example", "PA/extra")]⟩)
        "https://app.example" ⟨"P", "A"⟩ =
      (⟨"@Person", [], some [("https://app.example", "PA/extra")]⟩, false) ∧
    "PA/extra" ≠ "P" ++ "A" ++ "/" := by
  decide

/-- C1 (amended): for every profile whose `apps[origin]` entry is a
truthy string that does **not start with**
`expectedPrefix = urlPrefix ++ address ++ "/"`, Reconciliation
overwrites the entry to exactly `expectedPrefix` and reports
`changed = true` (entries that merely differ from `expectedPrefix` but
start with it are left untouched, per `claim_C1_counterexample`). -/
theorem claim_C1_overwrite (p : ProfileDoc) (apps : List (String × String))
    (appOrigin v : String) (cfg : GaiaHubConfig)
    (happs : p.apps = some apps)
    (hget : objGet apps appOrigin = some v)
    (ht : truthyStr v = true)
    (hns : jsStartsWith v (cfg.urlPrefix ++ cfg.address ++ "/") = false) :
    updateProfileApps (some p) appOrigin cfg =
      ({ p with
          apps := some (objSet apps appOrigin
            (cfg.urlPrefix ++ cfg.address ++ "/")) }, true) ∧
    objGet (objSet apps appOrigin (cfg.urlPrefix ++ cfg.address ++ "/"))
        appOrigin = some (cfg.urlPrefix ++ cfg.address ++ "/") := by
  constructor
  · unfold updateProfileApps
    simp [happs, hget, truthyOpt, ht, hns]
  · exact objGet_objSet_self apps appOrigin (cfg.urlPrefix ++ cfg.address ++ "/")

/-- C1 witness: concrete run of the amended claim. -/
theorem claim_C1_witness :
    updateProfileApps (some ⟨"@Person", [], some [("o", "old/url")]⟩) "o"
        ⟨"P", "A"⟩ =
      ({ (⟨"@Person", [], some [("o", "old/url")]⟩ : ProfileDoc) with
          apps := some (objSet [("o", "old/url")] "o" ("P" ++ "A" ++ "/")) },
        true) ∧
    objGet (objSet [("o", "old/url")] "o" ("P" ++ "A" ++ "/")) "o" =
      some ("P" ++ "A" ++ "/") :=
  claim_C1_overwrite ⟨"@Person", [], some [("o", "old/url")]⟩
    [("o", "old/url")] "o" "old/url" ⟨"P", "A"⟩ rfl rfl (by decide) (by decide)

/-- C4: Profile Reconciliation is idempotent — re-running
`updateProfileApps` on the profile returned by a first run (any input
profile, origin and storage config) reports `changed = false` and
returns the identical profile document. -/
theorem claim_C4_idempotent (lookupProfile : Option ProfileDoc)
    (appOrigin : String) (cfg : GaiaHubConfig) :
    updateProfileApps (some (updateProfileApps lookupProfile appOrigin cfg).1)
        appOrigin cfg =
      ((updateProfileApps lookupProfile appOrigin cfg).1, false) := by
  obtain ⟨apps, w, h1, h2, h3, h4⟩ :=
    updateProfileApps_post lookupProfile appOrigin cfg
  exact updateProfileApps_fixed _ apps appOrigin cfg w h1 h2 h3 h4


/-- When the discovery loop succeeds with `ids`, `getIdentityInfo`
returns the filtered positional annotation of `ids` plus the anonymous
identity (its index still phrased via `applyNameDatas`). -/
theorem getIdentityInfo_ok {P : Type} (emptyProfile : P)
    (ownerKey : Nat → KeyInfo) (namesOwned : String → List String)
    (lookup : String → Option (NameData P)) (ids : List (NamedIdentity P))
    (h : loadNamedIdentities emptyProfile ownerKey namesOwned = .ok ids) :
    getIdentityInfo emptyProfile ownerKey namesOwned lookup =
      .ok (((applyNameDatas ids
              ((ids.map fun i => lookup i.name).filterMap fun x => x)).filter
            fun i => truthyStr i.profileUrl) ++
          [loadUnnamedIdentity emptyProfile ownerKey
            ((applyNameDatas ids
              ((ids.map fun i => lookup i.name).filterMap fun x => x)).length + 1)]) := by
  unfold getIdentityInfo
  rw [h]

/-- Discovery scenario refuting per-identity failure isolation: two
named identities, `alice` at index 0 (whose profile lookup fails) and
`bob` at index 1 (whose lookup succeeds). -/
def c2ownerKey : Nat → KeyInfo := fun i =>
  if i = 0 then ⟨"ID-0", "k0"⟩ else if i = 1 then ⟨"ID-1", "k1"⟩
  else ⟨"ID-x", "kx"⟩

/-- Registry for the scenario of `c2ownerKey`: address `0` owns
`alice`, address `1` owns `bob`, later addresses own nothing. -/
def c2namesOwned : String → List String := fun a =>
  if a = "0" then ["alice"] else if a = "1" then ["bob"] else []

/-- Profile lookups for the scenario of `c2ownerKey`: the lookup for
`alice` fails (`none`); the lookup for `bob` yields bob's profile. -/
def c2lookup : String → Option (NameData Nat) := fun n =>
  if n = "bob" then some ⟨false, "https://bob.profile", 42⟩ else none

/-- C2: when `alice`'s lookup fails, discovery does not degrade only
`alice`'s entry — filtering the `null` out of the lookup results before
the positional assignment shifts `bob`'s profile data onto `alice`:
the result keeps `alice` carrying bob's profile (42) and bob's profile
URL, and drops `bob` entirely, contradicting the claim that every
other identity keeps its own profile attached to itself. -/
theorem claim_C2_lookup_failure_misattaches :
    getIdentityInfo 0 c2ownerKey c2namesOwned c2lookup =
      .ok [⟨"alice", "ID-0", "k0", 0, 42, "https://bob.profile"⟩,
           ⟨"", "ID-x", "kx", 3, 0, ""⟩] := by
  have hloop : loadNamedIdentities 0 c2ownerKey c2namesOwned =
      .ok [⟨"alice", "ID-0", "k0", 0, 0, ""⟩, ⟨"bob", "ID-1", "k1", 1, 0, ""⟩] := by
    unfold loadNamedIdentities
    rw [loadNamedIdentitiesLoop_step 0 c2ownerKey c2namesOwned 0 []
          (by omega) (by decide),
        loadNamedIdentitiesLoop_step 0 c2ownerKey c2namesOwned 1 _
          (by omega) (by decide)]
    exact loadNamedIdentitiesLoop_out 0 c2ownerKey c2namesOwned 2 _
      (by omega) (by decide)
  rw [getIdentityInfo_ok 0 c2ownerKey c2namesOwned c2lookup _ hloop]
  rfl

/-- C3: whenever the discovery loop returns a list `ids` of named
identities, `getIdentityInfo` returns the (positionally profile-
annotated, then filtered) named identities followed by exactly one
synthetic anonymous identity whose name, profile and profile URL are
empty and whose index is the count of named identities plus one. -/
theorem claim_C3_anonymous_appended {P : Type} (emptyProfile : P)
    (ownerKey : Nat → KeyInfo) (namesOwned : String → List String)
    (lookup : String → Option (NameData P)) (ids : List (NamedIdentity P))
    (h : loadNamedIdentities emptyProfile ownerKey namesOwned = .ok ids) :
    getIdentityInfo emptyProfile ownerKey namesOwned lookup =
      .ok (((applyNameDatas ids
              ((ids.map fun i => lookup i.name).filterMap fun x => x)).filter
            fun i => truthyStr i.profileUrl) ++
          [loadUnnamedIdentity emptyProfile ownerKey (ids.length + 1)]) ∧
    (loadUnnamedIdentity emptyProfile ownerKey (ids.length + 1)).name = "" ∧
    (loadUnnamedIdentity emptyProfile ownerKey (ids.length + 1)).profile =
      emptyProfile ∧
    (loadUnnamedIdentity emptyProfile ownerKey (ids.length + 1)).profileUrl = "" ∧
    (loadUnnamedIdentity emptyProfile ownerKey (ids.length + 1)).index =
      ids.length + 1 := by
  refine ⟨?_, rfl, rfl, rfl, rfl⟩
  rw [getIdentityInfo_ok emptyProfile ownerKey namesOwned lookup ids h,
    applyNameDatas_length]

/-- C3 witness: a seed whose index 0 owns no names yields exactly the
single anonymous identity at index 1. -/
theorem claim_C3_witness :
    getIdentityInfo (P := Nat) 0 (fun _ => ⟨"ABCD", "k"⟩) (fun _ => [])
        (fun _ => none) =
      .ok [⟨"", "ABCD", "k", 1, 0, ""⟩] := by
  have h := claim_C3_anonymous_appended (P := Nat) 0 (fun _ => ⟨"ABCD", "k"⟩)
    (fun _ => []) (fun _ => none) []
    (loadNamedIdentitiesLoop_out 0 (fun _ => ⟨"ABCD", "k"⟩) (fun _ => []) 0 []
      (by omega) rfl)
  rw [h.1]
  rfl

/-- C5 (counterexample): against a registry owning a name at every
address, discovery performs 65537 registry queries (indices 0 through
65536) before failing — not the 65536 iterations the claim states. -/
theorem claim_C5_counterexample :
    loadNamedIdentitiesLoopCount (P := Nat) 0 (fun _ => ⟨"BBBB", "kb"⟩)
        (fun _ => ["m"]) 0 [] =
      (.error "Too many names", 65537) ∧ (65537 : Nat) ≠ 65536 :=
  ⟨loadNamedIdentitiesLoopCount_alwaysOwned 0 (fun _ => ⟨"BBBB", "kb"⟩)
      (fun _ => ["m"]) (fun _ => by simp) 65537 0 [] rfl,
    by decide⟩

/-- C5 (amended): for every owner-key function and registry answering
at least one name for every address, discovery does not loop forever:
it fails with the `'Too many names'` error after exactly 65537 registry
queries (one per index 0..65536), and already-reached index 65537
fails immediately with zero further queries. -/
theorem claim_C5_bound {P : Type} (emptyProfile : P) (ownerKey : Nat → KeyInfo)
    (namesOwned : String → List String) (h : ∀ a, namesOwned a ≠ []) :
    loadNamedIdentities emptyProfile ownerKey namesOwned =
      .error "Too many names" ∧
    loadNamedIdentitiesLoopCount emptyProfile ownerKey namesOwned 0 [] =
      (.error "Too many names", 65537) ∧
    (∀ ids, loadNamedIdentitiesLoopCount emptyProfile ownerKey namesOwned
      65537 ids = (.error "Too many names", 0)) := by
  refine ⟨?_, ?_, fun ids => ?_⟩
  · unfold loadNamedIdentities
    exact loadNamedIdentitiesLoop_alwaysOwned emptyProfile ownerKey namesOwned
      h 65537 0 [] rfl
  · exact loadNamedIdentitiesLoopCount_alwaysOwned emptyProfile ownerKey
      namesOwned h 65537 0 [] rfl
  · exact loadNamedIdentitiesLoopCount_alwaysOwned emptyProfile ownerKey
      namesOwned h 0 65537 ids rfl

/-- C5 witness: concrete always-owning registry. -/
theorem claim_C5_witness :
    loadNamedIdentities (P := Nat) 0 (fun _ => ⟨"AAAA", "k"⟩)
        (fun _ => ["n"]) = .error "Too many names" ∧
    loadNamedIdentitiesLoopCount (P := Nat) 0 (fun _ => ⟨"AAAA", "k"⟩)
        (fun _ => ["n"]) 0 [] = (.error "Too many names", 65537) :=
  ⟨(claim_C5_bound 0 (fun _ => ⟨"AAAA", "k"⟩) (fun _ => ["n"])
      (fun _ => by simp)).1,
    (claim_C5_bound 0 (fun _ => ⟨"AAAA", "k"⟩) (fun _ => ["n"])
      (fun _ => by simp)).2.1⟩

/-- C6: on the successful verification path, the sign-in handler signs
(with the identity's key) and uploads the reconciled profile **iff**
Reconciliation reported `changed = true` and the requested scopes
include `store_write`; an attempted upload that reports an error
answers HTTP 502, while a validation failure (inner token invalid)
answers HTTP 400. -/
theorem claim_C6_upload_gating {P C K : Type} (deps : KeyDeps P K)
    (mnemonic : String) (env : SignInEnv P C) (s : String)
    (cfg : GaiaHubConfig)
    (h1 : env.encAuthResponse = some s) (h2 : env.outerValid = true)
    (h3 : env.innerValid = true)
    (h4 : env.gaiaConnect (signInRebuild deps mnemonic env.payload).1 =
      .ok cfg) :
    ((handleSignIn deps mnemonic env).uploadedProfile.isSome =
      ((updateProfileApps env.profileLookup env.payload.metadata.appOrigin
          cfg).2 &&
        env.payload.metadata.scopes.contains "store_write")) ∧
    ((handleSignIn deps mnemonic env).uploadedProfile.isSome = true →
      (handleSignIn deps mnemonic env).uploadedProfile =
        some ⟨env.payload.metadata.id.privateKey,
          (updateProfileApps env.profileLookup env.payload.metadata.appOrigin
            cfg).1⟩) ∧
    (truthyOpt env.uploadResult.error = true →
      (handleSignIn deps mnemonic env).uploadedProfile.isSome = true →
      (handleSignIn deps mnemonic env).response =
        .jsonError
          (some ("Failed to upload new profile: " ++
            env.uploadResult.error.getD "")) 502) ∧
    ((handleSignIn deps mnemonic { env with innerValid := false }).response =
      .jsonError
        (some ("Unable to verify authResponse token " ++
          env.decryptedAuthResponse)) 400) := by
  unfold handleSignIn
  rw [h1]
  simp only [h2, h3, h4]
  cases hch : (updateProfileApps env.profileLookup
      env.payload.metadata.appOrigin cfg).2 <;>
    cases hsc : env.payload.metadata.scopes.contains "store_write" <;>
    by_cases he : truthyOpt env.uploadResult.error = true <;>
    simp_all [truthyOpt]

/-- C7: whenever the sign-in handler redirects back to the application,
the credential it hands back is signed with the chosen identity's own
private key, its metadata envelope holds exactly the single field
`profileUrl` (all other handshake metadata is gone), its remaining
claims are carried over unchanged, and the redirect target is the one
from the handshake metadata. -/
theorem claim_C7_outward_credential {P C K : Type} (deps : KeyDeps P K)
    (mnemonic : String) (env : SignInEnv P C) (uri : String)
    (tok : SignedToken (AuthPayload C MetadataOut))
    (h : (handleSignIn deps mnemonic env).response = .redirect uri tok) :
    tok.signingKey = env.payload.metadata.id.privateKey ∧
    tok.payload.metadata = ⟨env.payload.metadata.profileUrl⟩ ∧
    tok.payload.core = env.payload.core ∧
    uri = env.payload.metadata.redirectUri := by
  unfold handleSignIn at h
  split at h
  · simp at h
  · split at h
    · simp at h
    · split at h
      · simp at h
      · dsimp only at h
        split at h
        · simp at h
        · split at h
          · split at h
            · simp at h
            · dsimp only at h
              simp only [SignInResult.redirect.injEq] at h
              obtain ⟨hu, ht⟩ := h
              subst hu
              subst ht
              exact ⟨rfl, rfl, rfl, rfl⟩
          · split at h
            · simp at h
            · dsimp only at h
              simp only [SignInResult.redirect.injEq] at h
              obtain ⟨hu, ht⟩ := h
              subst hu
              subst ht
              exact ⟨rfl, rfl, rfl, rfl⟩

/-- C10: the outward credential's signing key is taken verbatim from
the decrypted credential's metadata (`metadata.id.privateKey`): it does
not depend on the mnemonic in any way (the rebuilt token is identical
under any two mnemonics), while the application private key is the one
re-derived from the mnemonic by `getAppPrivateKey`. -/
theorem claim_C10_resign_key_verbatim {P C K : Type} (deps : KeyDeps P K)
    (m1 m2 : String) (p : AuthPayload C (MetadataFull P)) :
    (signInRebuild deps m1 p).2.signingKey = p.metadata.id.privateKey ∧
    (signInRebuild deps m1 p).2 = (signInRebuild deps m2 p).2 ∧
    (signInRebuild deps m1 p).1 =
      getAppPrivateKey deps m1 p.metadata.id p.metadata.appOrigin :=
  ⟨rfl, rfl, rfl⟩

/-- Key-derivation collaborators for the C6 witness scenario. -/
def c6deps : KeyDeps Nat Nat :=
  ⟨fun _ _ _ _ => 0, fun _ _ => .error "e", fun _ _ => "app-key"⟩

/-- Environment for the C6 witness scenario: valid handshake, empty
profile lookup (so reconciliation reports a change), `store_write`
requested, and an upload that reports an error. -/
def c6env : SignInEnv Nat Nat :=
  { encAuthResponse := some "x", outerValid := true,
    decryptedAuthResponse := "tok", innerValid := true,
    payload := ⟨0, ⟨⟨"alice", "IDa", "ka", 0, 0, "purl"⟩, "purl", "origin",
      "redir", ["store_write"], "salt"⟩⟩,
    gaiaConnect := fun _ => .ok ⟨"G", "A"⟩,
    profileLookup := none,
    uploadResult := ⟨[], some "upload bad"⟩ }

/-- C6 witness: on the concrete scenario the upload is attempted and
its failure answers 502. -/
theorem claim_C6_witness :
    (handleSignIn c6deps "mn" c6env).uploadedProfile.isSome = true ∧
    (handleSignIn c6deps "mn" c6env).response =
      .jsonError (some "Failed to upload new profile: upload bad") 502 := by
  have h := claim_C6_upload_gating c6deps "mn" c6env "x" ⟨"G", "A"⟩
    rfl rfl rfl rfl
  have hu : (handleSignIn c6deps "mn" c6env).uploadedProfile.isSome = true := by
    rw [h.1]
    decide
  refine ⟨hu, ?_⟩
  have h502 := h.2.2.1 (by decide) hu
  simpa using h502

/-- Key-derivation collaborators for the C7 witness scenario. -/
def c7deps : KeyDeps Nat Nat :=
  ⟨fun _ _ _ _ => 0, fun _ _ => .error "e", fun _ _ => "app-key"⟩

/-- Environment for the C7 witness scenario: valid handshake, no write
scope (so no upload), leading to the redirect response. -/
def c7env : SignInEnv Nat Nat :=
  { encAuthResponse := some "x", outerValid := true,
    decryptedAuthResponse := "tok", innerValid := true,
    payload := ⟨7, ⟨⟨"alice", "IDa", "ka", 0, 0, "purl"⟩, "purl", "origin",
      "redir", [], "salt"⟩⟩,
    gaiaConnect := fun _ => .ok ⟨"G", "A"⟩,
    profileLookup := none,
    uploadResult := ⟨[], none⟩ }

/-- C7 witness: the concrete redirect hands back a token signed with
the identity key `"ka"`, with metadata reduced to the profile URL. -/
theorem claim_C7_witness :
    (⟨"ka", ⟨7, ⟨"purl"⟩⟩⟩ :
        SignedToken (AuthPayload Nat MetadataOut)).signingKey =
      c7env.payload.metadata.id.privateKey ∧
    (⟨"ka", ⟨7, ⟨"purl"⟩⟩⟩ :
        SignedToken (AuthPayload Nat MetadataOut)).payload.metadata =
      ⟨c7env.payload.metadata.profileUrl⟩ ∧
    (⟨"ka", ⟨7, ⟨"purl"⟩⟩⟩ :
        SignedToken (AuthPayload Nat MetadataOut)).payload.core =
      c7env.payload.core ∧
    "redir" = c7env.payload.metadata.redirectUri :=
  claim_C7_outward_credential c7deps "mn" c7env "redir" ⟨"ka", ⟨7, ⟨"purl"⟩⟩⟩
    (by rfl)

/-- C9: `encryptMnemonic` derives its key block by
`pbkdf2Sync(password, salt, 100000, 48)`, splits it into three 16-byte
parts (cipher key, MAC key, IV), encrypts the normalized mnemonic with
`aes-128-cbc`, HMACs `salt || ciphertext` with the MAC key, and
outputs exactly `salt(16) || hmac(32) || ciphertext` — the three
slices recover the three components. -/
theorem claim_C9_encrypt_layout (B : Bip39) (Cr : CryptoPrims) (m pw : String)
    (salt keysAndIV ct mac : List Nat)
    (hval : B.validateMnemonic m = true)
    (hsalt : salt.length = 16)
    (hkeys : keysAndIV = Cr.pbkdf2Sync pw salt 100000 48)
    (hklen : keysAndIV.length = 48)
    (hct : ct = Cr.aes128cbcEncrypt (keysAndIV.take 16)
      ((keysAndIV.drop 32).take 16) (normalizeMnemonic B m))
    (hmac : mac = Cr.hmacSha256 ((keysAndIV.drop 16).take 16) (salt ++ ct))
    (hmaclen : mac.length = 32) :
    encryptMnemonic B Cr m pw salt = .ok (salt ++ mac ++ ct) ∧
    (salt ++ mac ++ ct).take 16 = salt ∧
    ((salt ++ mac ++ ct).drop 16).take 32 = mac ∧
    (salt ++ mac ++ ct).drop 48 = ct ∧
    (keysAndIV.take 16).length = 16 ∧
    ((keysAndIV.drop 16).take 16).length = 16 ∧
    ((keysAndIV.drop 32).take 16).length = 16 := by
  have hsm : (salt ++ mac).length = 48 := by
    rw [List.length_append, hsalt, hmaclen]
  refine ⟨?_, ?_, ?_, ?_, ?_, ?_, ?_⟩
  · unfold encryptMnemonic
    simp only [hval, Bool.true_eq_false, if_false, ← hkeys, ← hct, ← hmac]
  · rw [List.append_assoc]
    exact List.take_left' hsalt
  · rw [List.append_assoc, List.drop_left' hsalt]
    exact List.take_left' hmaclen
  · exact List.drop_left' hsm
  · simp [List.length_take, hklen]
  · simp [List.length_take, List.length_drop, hklen]
  · simp [List.length_take, List.length_drop, hklen]

/-- C8 (amended): with the stored buffer `salt || hmac || ct` produced
by `encryptBackupPhrase`, decryption with the right password recovers
the mnemonic; decryption with a wrong password (one whose derived MAC
key yields a different HMAC) always fails — with the
`'Wrong password (HMAC mismatch)'` authentication error when the block
cipher decrypts without error, and with the cipher's own error message
when the decipher itself fails (the source runs the decipher before
comparing HMACs) — and never silently accepts a mnemonic; the legacy
fallback's failure is surfaced alongside. -/
theorem claim_C8_roundtrip_auth (B : Bip39) (Cr : CryptoPrims)
    (legacy : String → List Nat → Except String String)
    (m pw pw2 le : String) (salt keysAndIV ct mac keysAndIV2 : List Nat)
    (hval : B.validateMnemonic m = true)
    (hsalt : salt.length = 16)
    (hkeys : keysAndIV = Cr.pbkdf2Sync pw salt 100000 48)
    (hct : ct = Cr.aes128cbcEncrypt (keysAndIV.take 16)
      ((keysAndIV.drop 32).take 16) (normalizeMnemonic B m))
    (hmac : mac = Cr.hmacSha256 ((keysAndIV.drop 16).take 16) (salt ++ ct))
    (hmaclen : mac.length = 32)
    (hdec : Cr.aes128cbcDecrypt (keysAndIV.take 16)
      ((keysAndIV.drop 32).take 16) ct = .ok (normalizeMnemonic B m))
    (hent : B.entropyToMnemonic (normalizeMnemonic B m) = m)
    (hkeys2 : keysAndIV2 = Cr.pbkdf2Sync pw2 salt 100000 48)
    (hdiff : Cr.sha256 mac ≠
      Cr.sha256 (Cr.hmacSha256 ((keysAndIV2.drop 16).take 16) (salt ++ ct)))
    (hlegacy : legacy pw2 (salt ++ mac ++ ct) = .error le) :
    encryptBackupPhrase B Cr m pw salt = .ok (salt ++ mac ++ ct) ∧
    decryptBackupPhrase B Cr legacy (salt ++ mac ++ ct) pw = .ok m ∧
    (∀ s, decryptBackupPhrase B Cr legacy (salt ++ mac ++ ct) pw2 ≠ .ok s) ∧
    ((∃ pt, Cr.aes128cbcDecrypt (keysAndIV2.take 16)
        ((keysAndIV2.drop 32).take 16) ct = .ok pt) →
      decryptBackupPhrase B Cr legacy (salt ++ mac ++ ct) pw2 =
        .error ("current algorithm: \"" ++ "Wrong password (HMAC mismatch)" ++
          "\", legacy algorithm: \"" ++ le ++ "\"")) ∧
    (∀ ce, Cr.aes128cbcDecrypt (keysAndIV2.take 16)
        ((keysAndIV2.drop 32).take 16) ct = .error ce →
      decryptBackupPhrase B Cr legacy (salt ++ mac ++ ct) pw2 =
        .error ("current algorithm: \"" ++ ce ++ "\", legacy algorithm: \"" ++
          le ++ "\"")) := by
  have hA : (salt ++ mac ++ ct).take 16 = salt := by
    rw [List.append_assoc]
    exact List.take_left' hsalt
  have hB : ((salt ++ mac ++ ct).drop 16).take 32 = mac := by
    rw [List.append_assoc, List.drop_left' hsalt]
    exact List.take_left' hmaclen
  have hC : (salt ++ mac ++ ct).drop 48 = ct := by
    have hsm : (salt ++ mac).length = 48 := by
      rw [List.length_append, hsalt, hmaclen]
    exact List.drop_left' hsm
  have hdm : decryptMnemonic B Cr (salt ++ mac ++ ct) pw = .ok m := by
    unfold decryptMnemonic
    simp only [hA, hB, hC, ← hkeys, hdec, ← hmac, denormalizeMnemonic,
      hent, hval]
    simp
  have hdm2 : decryptMnemonic B Cr (salt ++ mac ++ ct) pw2 =
      (match Cr.aes128cbcDecrypt (keysAndIV2.take 16)
          ((keysAndIV2.drop 32).take 16) ct with
        | .error ce => .error ce
        | .ok _ => .error "Wrong password (HMAC mismatch)") := by
    unfold decryptMnemonic
    simp only [hA, hB, hC, ← hkeys2]
    cases hd : Cr.aes128cbcDecrypt (keysAndIV2.take 16)
        ((keysAndIV2.drop 32).take 16) ct with
    | error ce => simp
    | ok pt => simp [hdiff]
  refine ⟨?_, ?_, ?_, ?_, ?_⟩
  · unfold encryptBackupPhrase encryptMnemonic
    simp only [hval, Bool.true_eq_false, if_false, ← hkeys, ← hct, ← hmac]
  · unfold decryptBackupPhrase
    rw [hdm]
  · intro s
    unfold decryptBackupPhrase
    rw [hdm2]
    cases hd : Cr.aes128cbcDecrypt (keysAndIV2.take 16)
        ((keysAndIV2.drop 32).take 16) ct with
    | error ce => rw [hlegacy]; simp
    | ok pt => rw [hlegacy]; simp
  · rintro ⟨pt, hpt⟩
    unfold decryptBackupPhrase
    rw [hdm2, hpt, hlegacy]
  · intro ce hce
    unfold decryptBackupPhrase
    rw [hdm2, hce, hlegacy]

/-- Toy `bip39` instance for the backup-phrase scenarios: the only
valid mnemonic is `"m"`, with entropy `[7]`. -/
def c8bip : Bip39 := ⟨fun s => s == "m", fun _ => [7], fun _ => "m"⟩

/-- Toy crypto primitives for the backup-phrase witness: the key block
is 48 copies of the password length, the cipher is the identity, the
HMAC is the MAC key doubled, SHA256 is the identity. -/
def c8crypto : CryptoPrims :=
  ⟨fun pw _ _ _ => List.replicate 48 pw.length,
   fun _ _ pt => pt,
   fun _ _ ctext => .ok ctext,
   fun k _ => k ++ k,
   fun d => d⟩

/-- Toy legacy (`triplesec`) decryption that always fails. -/
def c8legacy : String → List Nat → Except String String :=
  fun _ _ => .error "boom"

/-- The buffer `c8crypto` produces for mnemonic `"m"`, password
`"aa"` and an all-zero salt: `salt(16) || hmac(32) || ct`. -/
def c8data : List Nat :=
  List.replicate 16 0 ++ (List.replicate 16 2 ++ List.replicate 16 2) ++ [7]

/-- C8 witness: round-trip succeeds with the right password; the wrong
password `"b"` fails with the HMAC-mismatch authentication error
(surfaced together with the legacy failure). -/
theorem claim_C8_witness :
    decryptBackupPhrase c8bip c8crypto c8legacy c8data "aa" = .ok "m" ∧
    decryptBackupPhrase c8bip c8crypto c8legacy c8data "b" =
      .error ("current algorithm: \"" ++ "Wrong password (HMAC mismatch)" ++
        "\", legacy algorithm: \"" ++ "boom" ++ "\"") := by
  have h := claim_C8_roundtrip_auth c8bip c8crypto c8legacy "m" "aa" "b"
    "boom" (List.replicate 16 0) (List.replicate 48 2) [7]
    (List.replicate 16 2 ++ List.replicate 16 2) (List.replicate 48 1)
    (by decide) (by decide) (by decide) (by decide) (by decide) (by decide)
    rfl (by decide) (by decide) (by decide) rfl
  exact ⟨h.2.1, h.2.2.2.1 ⟨[7], rfl⟩⟩

/-- Toy crypto primitives whose decipher fails under any key other
than the one derived from the two-character password: decryption with
a wrong key reports `"bad decrypt"` (as node's `aes-128-cbc` padding
check does with overwhelming probability). -/
def c8cryptoStrict : CryptoPrims :=
  ⟨fun pw _ _ _ => List.replicate 48 pw.length,
   fun _ _ pt => pt,
   fun key _ ctext =>
     if key = List.replicate 16 2 then .ok ctext else .error "bad decrypt",
   fun k _ => k ++ k,
   fun d => d⟩

/-- Toy legacy decryption for the counterexample. -/
def c8legacyStrict : String → List Nat → Except String String :=
  fun _ _ => .error "triplesec: wrong key"

/-- C8 (counterexample): with a block cipher whose decryption fails
under a wrong key — the behaviour of `aes-128-cbc` padding — decrypting
an `encryptBackupPhrase` output with the wrong password `"b"` does
**not** fail with the HMAC-mismatch authentication error: the source
runs the decipher before comparing HMACs, so the surfaced
current-algorithm failure is the cipher's `"bad decrypt"`. -/
theorem claim_C8_counterexample :
    encryptBackupPhrase c8bip c8cryptoStrict "m" "aa" (List.replicate 16 0) =
      .ok c8data ∧
    decryptMnemonic c8bip c8cryptoStrict c8data "b" = .error "bad decrypt" ∧
    decryptBackupPhrase c8bip c8cryptoStrict c8legacyStrict c8data "b" =
      .error "current algorithm: \"bad decrypt\", legacy algorithm: \"triplesec: wrong key\"" ∧
    "bad decrypt" ≠ "Wrong password (HMAC mismatch)" :=
  ⟨rfl, rfl, rfl, by decide⟩

/-- Toy crypto primitives for the C9 witness (identical in shape to
`c8crypto`, separate for claim independence). -/
def c9crypto : CryptoPrims :=
  ⟨fun pw _ _ _ => List.replicate 48 pw.length,
   fun _ _ pt => pt,
   fun _ _ ctext => .ok ctext,
   fun k _ => k ++ k,
   fun d => d⟩

/-- Toy `bip39` instance for the C9 witness. -/
def c9bip : Bip39 := ⟨fun s => s == "m", fun _ => [7], fun _ => "m"⟩

/-- C9 witness: the concrete output layout `salt || hmac || ct` and its
slices. -/
theorem claim_C9_witness :
    encryptMnemonic c9bip c9crypto "m" "aa" (List.replicate 16 0) =
      .ok (List.replicate 16 0 ++
        (List.replicate 16 2 ++ List.replicate 16 2) ++ [7]) ∧
    (List.replicate 16 0 ++ (List.replicate 16 2 ++ List.replicate 16 2) ++
      [7]).take 16 = List.replicate 16 0 ∧
    ((List.replicate 16 0 ++ (List.replicate 16 2 ++ List.replicate 16 2) ++
      [7]).drop 16).take 32 = List.replicate 16 2 ++ List.replicate 16 2 ∧
    (List.replicate 16 0 ++ (List.replicate 16 2 ++ List.replicate 16 2) ++
      [7]).drop 48 = [7] ∧
    ((List.replicate 48 2).take 16).length = 16 ∧
    (((List.replicate 48 2).drop 16).take 16).length = 16 ∧
    (((List.replicate 48 2).drop 32).take 16).length = 16 :=
  claim_C9_encrypt_layout c9bip c9crypto "m" "aa" (List.replicate 16 0)
    (List.replicate 48 2) [7] (List.replicate 16 2 ++ List.replicate 16 2)
    (by decide) (by decide) (by decide) (by decide) (by decide) (by decide)
    (by decide)
